import Mathlib

/-!
Shallow embedding of the PeerPresent session-coordination server
(`server/routes.ts`, `server/storage.ts`, `shared/schema.ts`, `server/ai.ts`).

Modelling conventions:

* `Date` values are natural-number timestamps supplied by the caller (`now`).
* JavaScript numbers appearing in rating arithmetic are rationals (`ℚ`);
  `Math.round` is `jsRound`.
* The in-memory `Map`s of `MemStorage` are insertion-ordered lists; ids grow
  monotonically and entries are never deleted, so appending models `Map.set`
  of a fresh id and a position-preserving `List.map` models `Map.set` of an
  existing id, both in `Map.values()` iteration order.
* A WebSocket send is a `Send` record `{to, msg}`; each handler returns the
  list of messages it emits, in emission order.  `setInterval` /
  `clearInterval` are modelled by the stored-handle flag `timerInterval`
  together with the number of live tick streams, `tickStreams`.
* The external OpenAI call inside `generateAIFeedback` is abstracted as an
  oracle argument `ext : Option ExtResult`; `none` models any failure of the
  external call (network error, malformed response, timeout), which the
  source catches in its `try`/`catch`.
-/

namespace PeerPresent

/-- `users` table row (`shared/schema.ts`). -/
structure User where
  id : Nat
  username : String
  password : String
  isAdmin : Bool
deriving Repr, DecidableEq

/-- `teams` table row; `members` is the ordered list of `{name, usn}` pairs. -/
structure Team where
  id : Nat
  name : String
  projectTitle : String
  members : List (String × String)
  createdBy : Nat
deriving Repr, DecidableEq

/-- `presentation_sessions` table row. -/
structure PresentationSession where
  id : Nat
  teamId : Nat
  startTime : Nat
  endTime : Option Nat
  isActive : Bool
  createdBy : Nat
deriving Repr, DecidableEq

/-- `evaluations` table row.  The three rating columns are `integer` columns
holding arbitrary JavaScript integers (`insertEvaluationSchema` imposes no
range constraint on them). -/
structure Evaluation where
  id : Nat
  sessionId : Nat
  peerId : Nat
  technicalContent : Int
  presentationSkills : Int
  projectDemo : Int
  positivePoints : Option String
  negativePoints : Option String
  submittedAt : Nat
deriving Repr, DecidableEq

/-- `ai_feedback` table row. -/
structure AIFeedback where
  id : Nat
  sessionId : Nat
  strengths : List String
  improvements : List String
  overallScore : Int
  generatedAt : Nat
deriving Repr, DecidableEq

/-- `peers` table row. -/
structure Peer where
  id : Nat
  name : String
  usn : String
  userId : Nat
deriving Repr, DecidableEq

/-- `InsertPresentationSession` (the fields `createPresentationSession` is
called with in `routes.ts`: `{teamId, startTime, isActive, createdBy}`). -/
structure InsertPresentationSession where
  teamId : Nat
  startTime : Nat
  isActive : Bool
  createdBy : Nat
deriving Repr, DecidableEq

/-- `InsertEvaluation`: the object built in the `submit_evaluation` handler
and validated by `insertEvaluationSchema.parse`.  `createInsertSchema` derives
only column-type checks (numbers, nullable texts, a date), so on a well-typed
payload the parse always succeeds; in particular there is no `[1,10]` range
check here. -/
structure InsertEvaluation where
  sessionId : Nat
  peerId : Nat
  technicalContent : Int
  presentationSkills : Int
  projectDemo : Int
  positivePoints : Option String
  negativePoints : Option String
  submittedAt : Nat
deriving Repr, DecidableEq

/-- `InsertAIFeedback` as built in the `end_presentation` handler. -/
structure InsertAIFeedback where
  sessionId : Nat
  strengths : List String
  improvements : List String
  overallScore : Int
  generatedAt : Nat
deriving Repr, DecidableEq

/-- The mutable maps and id counters of `MemStorage` (`server/storage.ts`). -/
structure Storage where
  users : List User
  teams : List Team
  sessions : List PresentationSession
  evaluations : List Evaluation
  aiFeedbacks : List AIFeedback
  peers : List Peer
  currentSessionId : Nat
  currentEvaluationId : Nat
  currentFeedbackId : Nat
deriving Repr, DecidableEq

/-- `MemStorage.getUserById`. -/
def Storage.getUserById (st : Storage) (id : Nat) : Option User :=
  st.users.find? (fun u => u.id == id)

/-- `MemStorage.getTeam`. -/
def Storage.getTeam (st : Storage) (id : Nat) : Option Team :=
  st.teams.find? (fun t => t.id == id)

/-- `MemStorage.getActivePresentationSession`:
`Array.from(values()).find(s => s.isActive)`. -/
def Storage.getActivePresentationSession (st : Storage) : Option PresentationSession :=
  st.sessions.find? (fun s => s.isActive)

/-- A `Partial<PresentationSession>` as used by the two call sites of
`updatePresentationSession` (only `endTime` and `isActive` are ever patched). -/
structure SessionPatch where
  endTime : Option (Option Nat) := none
  isActive : Option Bool := none
deriving Repr, DecidableEq

/-- The spread `{...session, ...updates}`. -/
def applySessionPatch (s : PresentationSession) (p : SessionPatch) : PresentationSession :=
  { s with endTime := p.endTime.getD s.endTime, isActive := p.isActive.getD s.isActive }

/-- `MemStorage.updatePresentationSession`; `none` models the thrown
`Error` when the id is absent from the map. -/
def Storage.updatePresentationSession (st : Storage) (id : Nat) (p : SessionPatch) :
    Option Storage :=
  if st.sessions.any (fun s => s.id == id) then
    some { st with
      sessions := st.sessions.map (fun s => if s.id == id then applySessionPatch s p else s) }
  else none

/-- `MemStorage.createPresentationSession`: first deactivates any active
session (setting `endTime` to `now`), then stores the new row under a fresh
id.  The `updatePresentationSession` call cannot hit the not-found branch
because the patched id was just produced by `getActivePresentationSession`,
hence the `getD st`. -/
def Storage.createPresentationSession (st : Storage) (ins : InsertPresentationSession)
    (now : Nat) : Storage × PresentationSession :=
  let st1 : Storage :=
    match st.getActivePresentationSession with
    | some a =>
        (st.updatePresentationSession a.id
          { endTime := some (some now), isActive := some false }).getD st
    | none => st
  let sess : PresentationSession :=
    { id := st1.currentSessionId, teamId := ins.teamId, startTime := ins.startTime,
      endTime := none, isActive := ins.isActive, createdBy := ins.createdBy }
  ({ st1 with sessions := st1.sessions ++ [sess],
              currentSessionId := st1.currentSessionId + 1 }, sess)

/-- `MemStorage.getEvaluationsBySessionId`. -/
def Storage.getEvaluationsBySessionId (st : Storage) (sessionId : Nat) : List Evaluation :=
  st.evaluations.filter (fun e => e.sessionId == sessionId)

/-- `MemStorage.getEvaluationBySessionAndPeer`. -/
def Storage.getEvaluationBySessionAndPeer (st : Storage) (sessionId peerId : Nat) :
    Option Evaluation :=
  st.evaluations.find? (fun e => e.sessionId == sessionId && e.peerId == peerId)

/-- `MemStorage.createEvaluation`. -/
def Storage.createEvaluation (st : Storage) (ins : InsertEvaluation) :
    Storage × Evaluation :=
  let e : Evaluation :=
    { id := st.currentEvaluationId, sessionId := ins.sessionId, peerId := ins.peerId,
      technicalContent := ins.technicalContent,
      presentationSkills := ins.presentationSkills, projectDemo := ins.projectDemo,
      positivePoints := ins.positivePoints, negativePoints := ins.negativePoints,
      submittedAt := ins.submittedAt }
  ({ st with evaluations := st.evaluations ++ [e],
             currentEvaluationId := st.currentEvaluationId + 1 }, e)

/-- `MemStorage.createAIFeedback`. -/
def Storage.createAIFeedback (st : Storage) (ins : InsertAIFeedback) :
    Storage × AIFeedback :=
  let f : AIFeedback :=
    { id := st.currentFeedbackId, sessionId := ins.sessionId, strengths := ins.strengths,
      improvements := ins.improvements, overallScore := ins.overallScore,
      generatedAt := ins.generatedAt }
  ({ st with aiFeedbacks := st.aiFeedbacks ++ [f],
             currentFeedbackId := st.currentFeedbackId + 1 }, f)

/-- `MemStorage.getPeerByUserId`. -/
def Storage.getPeerByUserId (st : Storage) (userId : Nat) : Option Peer :=
  st.peers.find? (fun p => p.userId == userId)

/-! ## Feedback synthesizer (`server/ai.ts`) -/

/-- JavaScript `Math.round` on the (rational-modelled) numbers involved. -/
def jsRound (q : ℚ) : Int := ⌊q + 1 / 2⌋

/-- The structured `{strengths, improvements}` object parsed from a successful
external-generator response. -/
structure ExtResult where
  strengths : List String
  improvements : List String
deriving Repr, DecidableEq

/-- Return type of `generateAIFeedback`. -/
structure Feedback where
  strengths : List String
  improvements : List String
  overallScore : Int
deriving Repr, DecidableEq

/-- The fixed fallback strengths list of the `catch` branch. -/
def fallbackStrengths : List String :=
  ["The presentation demonstrated good technical understanding.",
   "The team communicated their ideas clearly.",
   "The project demo showed practical application of concepts."]

/-- The fixed fallback improvements list of the `catch` branch. -/
def fallbackImprovements : List String :=
  ["Consider adding more visual elements to enhance engagement.",
   "Practice time management to cover all key points.",
   "Provide more context about the problem being solved."]

/-- `generateAIFeedback` (`server/ai.ts`).  The team argument is used only in
the natural-language prompt, not in the returned record.  `ext = some r`
models a successful external call whose parsed JSON is `r`; `ext = none`
models any failure, handled by the `catch` branch. -/
def generateAIFeedback (evaluations : List Evaluation) (_team : Option Team)
    (ext : Option ExtResult) : Feedback :=
  match ext with
  | some result =>
      let avgTechnicalContent : ℚ :=
        (evaluations.map (fun e => (e.technicalContent : ℚ))).sum / (evaluations.length : ℚ)
      let avgPresentationSkills : ℚ :=
        (evaluations.map (fun e => (e.presentationSkills : ℚ))).sum / (evaluations.length : ℚ)
      let avgProjectDemo : ℚ :=
        (evaluations.map (fun e => (e.projectDemo : ℚ))).sum / (evaluations.length : ℚ)
      let avgOverall : Int :=
        jsRound ((avgTechnicalContent + avgPresentationSkills + avgProjectDemo) / 3 * 10)
      { strengths := result.strengths, improvements := result.improvements,
        overallScore := avgOverall }
  | none =>
      { strengths := fallbackStrengths, improvements := fallbackImprovements,
        overallScore := jsRound
          ((evaluations.map (fun e =>
              ((e.technicalContent : ℚ) + (e.presentationSkills : ℚ)
                + (e.projectDemo : ℚ)) / 3)).sum / (evaluations.length : ℚ) * 10) }

/-! ## Connection registry, server state and message handlers (`server/routes.ts`) -/

/-- An entry of the `clients : Map<WebSocket, Client>` map; `cid` stands for
the WebSocket object identity, `isOpen` for `readyState === OPEN`. -/
structure Client where
  cid : Nat
  userId : Nat
  isAdmin : Bool
  isOpen : Bool
deriving Repr, DecidableEq

/-- The per-dimension averages computed in the `submit_evaluation` handler. -/
structure Averages where
  technicalContent : ℚ
  presentationSkills : ℚ
  projectDemo : ℚ
  overall : ℚ
deriving Repr, DecidableEq

/-- An outbound WebSocket message (`{type, payload}` envelope). -/
inductive OutMsg where
  | errorMsg (message : String)
  | sessionUpdate (session : PresentationSession) (team : Team)
  | sessionEnd
  | timerUpdate (seconds : Nat) (isRunning : Bool)
  | peersUpdate (peers : List (Nat × String))
  | evaluationUpdate (evaluations : List Evaluation) (averages : Averages)
  | evaluationSubmitted (success : Bool)
  | feedbackUpdate (feedback : Feedback)
  | screenShareStart
  | screenShareStop
deriving Repr, DecidableEq

/-- One `socket.send(...)`: message `msg` written to the connection `dest`. -/
structure Send where
  dest : Nat
  msg : OutMsg
deriving Repr, DecidableEq

/-- The module-level mutable state of `registerRoutes`: the client registry,
the presentation state and the timer state.  `timerInterval` is whether the
`timerInterval` variable holds a handle; `tickStreams` counts the live
`setInterval` tick streams (in the source these coincide because every
`setInterval` result is stored in `timerInterval` and every stored handle is
`clearInterval`-ed before being dropped). -/
structure ServerState where
  storage : Storage
  clients : List Client
  activeSession : Option PresentationSession
  activeTeam : Option Team
  timerSeconds : Nat
  isTimerRunning : Bool
  timerInterval : Bool
  tickStreams : Nat
deriving Repr, DecidableEq

/-- `clients.forEach` send to every open connection. -/
def broadcastAll (st : ServerState) (m : OutMsg) : List Send :=
  st.clients.filterMap (fun c => if c.isOpen then some ⟨c.cid, m⟩ else none)

/-- `clients.forEach` send guarded by `c.isAdmin`. -/
def broadcastAdmins (st : ServerState) (m : OutMsg) : List Send :=
  st.clients.filterMap (fun c => if c.isAdmin && c.isOpen then some ⟨c.cid, m⟩ else none)

/-- `clients.forEach` send guarded by `!c.isAdmin`. -/
def broadcastNonAdmins (st : ServerState) (m : OutMsg) : List Send :=
  st.clients.filterMap (fun c => if !c.isAdmin && c.isOpen then some ⟨c.cid, m⟩ else none)

/-- `clearInterval(timerInterval); timerInterval = null` guarded by
`if (timerInterval)`. -/
def clearTimerInterval (st : ServerState) : ServerState :=
  if st.timerInterval then
    { st with timerInterval := false, tickStreams := st.tickStreams - 1 }
  else st

/-- Connection-handshake tagging (lines 295-331): the `sessionId` query
parameter, when present and resolving to a stored user, tags the connection
with that user's id and admin flag; otherwise the connection is anonymous
(`userId = 0`, `isAdmin = false`).  A non-numeric parameter is modelled as
`none` (the `isNaN` branch). -/
def resolveConnection (stor : Storage) (sessionIdParam : Option Nat) : Nat × Bool :=
  match sessionIdParam with
  | none => (0, false)
  | some sid =>
      match stor.getUserById sid with
      | none => (0, false)
      | some user => (user.id, user.isAdmin)

/-- The connected-peers list sent to admins (`getPeersList`): every non-admin,
identity-resolved client whose `Peer` record exists. -/
def getPeersList (st : ServerState) : List (Nat × String) :=
  (st.clients.filter (fun c => !c.isAdmin && c.userId > 0)).filterMap
    (fun c => (st.storage.getPeerByUserId c.userId).map (fun p => (p.id, p.name)))

/-- `sendState` (lines 257-292): push the current observable state to one
connection — the active session and team if both set, the timer snapshot,
and (for a registered admin connection) the peers list. -/
def sendState (st : ServerState) (c : Client) : List Send :=
  if c.isOpen then
    (match st.activeSession, st.activeTeam with
     | some sess, some team => [⟨c.cid, .sessionUpdate sess team⟩]
     | _, _ => []) ++
    [⟨c.cid, .timerUpdate st.timerSeconds st.isTimerRunning⟩] ++
    (match st.clients.find? (fun k => k.cid == c.cid) with
     | some k => if k.isAdmin then [⟨c.cid, .peersUpdate (getPeersList st)⟩] else []
     | none => [])
  else []

/-- `get_state` handler: resend the snapshot to the caller, no state change. -/
def handleGetState (st : ServerState) (sender : Client) : ServerState × List Send :=
  (st, sendState st sender)

/-- `start_presentation` handler (lines 371-431). -/
def startPresentation (st : ServerState) (sender : Client) (teamId : Nat) (now : Nat) :
    ServerState × List Send :=
  if !sender.isAdmin then
    (st, [⟨sender.cid, .errorMsg "Only admins can start presentations"⟩])
  else
    match st.storage.getTeam teamId with
    | none => (st, [⟨sender.cid, .errorMsg "Team not found"⟩])
    | some team =>
        let (stor1, newSession) := st.storage.createPresentationSession
          { teamId := teamId, startTime := now, isActive := true,
            createdBy := sender.userId } now
        let st1 : ServerState :=
          { st with storage := stor1, activeSession := some newSession,
                    activeTeam := some team, timerSeconds := 0, isTimerRunning := false }
        let st2 := clearTimerInterval st1
        (st2, st2.clients.flatMap (fun c =>
          if c.isOpen then
            [⟨c.cid, .sessionUpdate newSession team⟩,
             ⟨c.cid, .timerUpdate st2.timerSeconds st2.isTimerRunning⟩]
          else []))

/-- `end_presentation` handler (lines 433-513).  The feedback block runs
first (the `await`ed generator call, the `createAIFeedback` persistence and
the `feedback_update` broadcast), then the session row is patched, the timer
stopped, the active session cleared, and `session_end` plus a hardcoded
`timer_update{0,false}` broadcast.  If `updatePresentationSession` throws
(id absent), the outer catch stops the handler: nothing further is sent. -/
def endPresentation (st : ServerState) (sender : Client) (now : Nat)
    (ext : Option ExtResult) : ServerState × List Send :=
  if !sender.isAdmin then
    (st, [⟨sender.cid, .errorMsg "Only admins can end presentations"⟩])
  else
    match st.activeSession with
    | none => (st, [⟨sender.cid, .errorMsg "No active presentation to end"⟩])
    | some sess =>
        let evaluations := st.storage.getEvaluationsBySessionId sess.id
        let (st1, feedbackSends) :=
          if evaluations.length > 0 then
            let feedback := generateAIFeedback evaluations st.activeTeam ext
            let (stor1, _) := st.storage.createAIFeedback
              { sessionId := sess.id, strengths := feedback.strengths,
                improvements := feedback.improvements,
                overallScore := feedback.overallScore, generatedAt := now }
            ({ st with storage := stor1 }, broadcastAll st (.feedbackUpdate feedback))
          else (st, ([] : List Send))
        match st1.storage.updatePresentationSession sess.id
            { endTime := some (some now), isActive := some false } with
        | none => (st1, feedbackSends)
        | some stor2 =>
            let st2 := clearTimerInterval
              { st1 with storage := stor2, isTimerRunning := false,
                         activeSession := none, activeTeam := none }
            (st2, feedbackSends ++ st2.clients.flatMap (fun c =>
              if c.isOpen then
                [⟨c.cid, .sessionEnd⟩, ⟨c.cid, .timerUpdate 0 false⟩]
              else []))

/-- The client-supplied part of a `submit_evaluation` payload (the fields
`insertEvaluationSchema` retains after the handler adds `peerId`,
`sessionId` and `submittedAt`). -/
structure EvalPayload where
  technicalContent : Int
  presentationSkills : Int
  projectDemo : Int
  positivePoints : Option String
  negativePoints : Option String
deriving Repr, DecidableEq

/-- `submit_evaluation` handler (lines 515-591). -/
def submitEvaluation (st : ServerState) (sender : Client) (payload : EvalPayload)
    (now : Nat) : ServerState × List Send :=
  match st.activeSession with
  | none => (st, [⟨sender.cid, .errorMsg "No active presentation to evaluate"⟩])
  | some sess =>
      if sender.isAdmin then
        (st, [⟨sender.cid, .errorMsg "Admins cannot submit evaluations"⟩])
      else
        match st.storage.getEvaluationBySessionAndPeer sess.id sender.userId with
        | some _ =>
            (st, [⟨sender.cid,
              .errorMsg "You have already submitted an evaluation for this presentation"⟩])
        | none =>
            let ins : InsertEvaluation :=
              { sessionId := sess.id, peerId := sender.userId,
                technicalContent := payload.technicalContent,
                presentationSkills := payload.presentationSkills,
                projectDemo := payload.projectDemo,
                positivePoints := payload.positivePoints,
                negativePoints := payload.negativePoints, submittedAt := now }
            let (stor1, _) := st.storage.createEvaluation ins
            let st1 := { st with storage := stor1 }
            let sessionEvaluations := stor1.getEvaluationsBySessionId sess.id
            let n : ℚ := (sessionEvaluations.length : ℚ)
            let avgTechnicalContent : ℚ :=
              (sessionEvaluations.map (fun e => (e.technicalContent : ℚ))).sum / n
            let avgPresentationSkills : ℚ :=
              (sessionEvaluations.map (fun e => (e.presentationSkills : ℚ))).sum / n
            let avgProjectDemo : ℚ :=
              (sessionEvaluations.map (fun e => (e.projectDemo : ℚ))).sum / n
            let avgOverall : ℚ :=
              (avgTechnicalContent + avgPresentationSkills + avgProjectDemo) / 3
            (st1,
              broadcastAdmins st1 (.evaluationUpdate sessionEvaluations
                { technicalContent := avgTechnicalContent,
                  presentationSkills := avgPresentationSkills,
                  projectDemo := avgProjectDemo, overall := avgOverall }) ++
              [⟨sender.cid, .evaluationSubmitted true⟩])

/-- `timer_start` handler (lines 593-645). -/
def timerStart (st : ServerState) (sender : Client) : ServerState × List Send :=
  if !sender.isAdmin then
    (st, [⟨sender.cid, .errorMsg "Only admins can control the timer"⟩])
  else
    match st.activeSession with
    | none => (st, [⟨sender.cid, .errorMsg "No active presentation"⟩])
    | some _ =>
        let st1 := { st with isTimerRunning := true }
        let st2 :=
          if !st1.timerInterval then
            { st1 with timerInterval := true, tickStreams := st1.tickStreams + 1 }
          else st1
        (st2, broadcastAll st2 (.timerUpdate st2.timerSeconds st2.isTimerRunning))

/-- `timer_pause` handler (lines 647-677). -/
def timerPause (st : ServerState) (sender : Client) : ServerState × List Send :=
  if !sender.isAdmin then
    (st, [⟨sender.cid, .errorMsg "Only admins can control the timer"⟩])
  else
    let st1 := clearTimerInterval { st with isTimerRunning := false }
    (st1, broadcastAll st1 (.timerUpdate st1.timerSeconds st1.isTimerRunning))

/-- `timer_reset` handler (lines 679-710). -/
def timerReset (st : ServerState) (sender : Client) : ServerState × List Send :=
  if !sender.isAdmin then
    (st, [⟨sender.cid, .errorMsg "Only admins can control the timer"⟩])
  else
    let st1 := clearTimerInterval { st with timerSeconds := 0, isTimerRunning := false }
    (st1, broadcastAll st1 (.timerUpdate st1.timerSeconds st1.isTimerRunning))

/-- `screen_share_start` handler. -/
def screenShareStartHandler (st : ServerState) (sender : Client) :
    ServerState × List Send :=
  if !sender.isAdmin then
    (st, [⟨sender.cid, .errorMsg "Only admins can share screen"⟩])
  else
    (st, broadcastNonAdmins st .screenShareStart)

/-- `screen_share_stop` handler. -/
def screenShareStopHandler (st : ServerState) (sender : Client) :
    ServerState × List Send :=
  if !sender.isAdmin then
    (st, [⟨sender.cid, .errorMsg "Only admins can stop screen share"⟩])
  else
    (st, broadcastNonAdmins st .screenShareStop)

/-- One firing of the `setInterval` callback of `timer_start`: increment the
counter and broadcast the new value. -/
def tickCallback (st : ServerState) : ServerState × List Send :=
  let st1 := { st with timerSeconds := st.timerSeconds + 1 }
  (st1, broadcastAll st1 (.timerUpdate st1.timerSeconds st1.isTimerRunning))

/-- One second of wall time: every live tick stream fires its callback once. -/
def tickPeriod (st : ServerState) : ServerState × List Send :=
  (List.range st.tickStreams).foldl
    (fun acc _ =>
      let (st1, sends) := tickCallback acc.1
      (st1, acc.2 ++ sends))
    (st, ([] : List Send))

/-! ## Shared concrete instances used by witnesses and counterexamples -/

/-- A stored team. -/
def team1 : Team := ⟨1, "Alpha", "Demo", [("A", "U1")], 1⟩

/-- A stored, active presentation session for `team1`. -/
def sess1 : PresentationSession := ⟨1, 1, 0, none, true, 1⟩

/-- An admin connection. -/
def adminClient : Client := ⟨1, 1, true, true⟩

/-- A resolved peer connection (userId 5). -/
def peerClient : Client := ⟨2, 5, false, true⟩

/-- An anonymous connection: the handshake identity was absent or did not
resolve, so `userId = 0`, `isAdmin = false`. -/
def anonClient : Client := ⟨3, 0, false, true⟩

/-- A second resolved peer connection (userId 6). -/
def peer2Client : Client := ⟨4, 6, false, true⟩

/-- Storage after admin login, one peer login, one team upload and one
session start. -/
def baseStorage : Storage :=
  { users := [⟨1, "admin", "admin", true⟩, ⟨5, "U1", "peer_user", false⟩],
    teams := [team1], sessions := [sess1], evaluations := [], aiFeedbacks := [],
    peers := [⟨1, "A", "U1", 5⟩],
    currentSessionId := 2, currentEvaluationId := 1, currentFeedbackId := 1 }

/-- Server state with `sess1` active and three connections. -/
def baseState : ServerState :=
  { storage := baseStorage, clients := [adminClient, peerClient, anonClient],
    activeSession := some sess1, activeTeam := some team1,
    timerSeconds := 0, isTimerRunning := false, timerInterval := false, tickStreams := 0 }

/-- An evaluation already stored for `sess1` by userId 5 (ratings 8, 7, 5). -/
def eval0 : Evaluation := ⟨1, 1, 5, 8, 7, 5, none, none, 1⟩

/-- `baseStorage` with `eval0` stored. -/
def evalStorage : Storage :=
  { baseStorage with evaluations := [eval0], currentEvaluationId := 2 }

/-- `baseState` with `eval0` stored and a fourth connection. -/
def evalState : ServerState :=
  { baseState with
    storage := evalStorage
    clients := [adminClient, peerClient, anonClient, peer2Client] }

/-! ## Helper lemmas -/

/-- `clearTimerInterval` touches only the timer handle and stream count. -/
theorem clearTimerInterval_storage (st : ServerState) :
    (clearTimerInterval st).storage = st.storage := by
  unfold clearTimerInterval; split <;> rfl

theorem clearTimerInterval_activeSession (st : ServerState) :
    (clearTimerInterval st).activeSession = st.activeSession := by
  unfold clearTimerInterval; split <;> rfl

theorem clearTimerInterval_timerSeconds (st : ServerState) :
    (clearTimerInterval st).timerSeconds = st.timerSeconds := by
  unfold clearTimerInterval; split <;> rfl

theorem clearTimerInterval_isTimerRunning (st : ServerState) :
    (clearTimerInterval st).isTimerRunning = st.isTimerRunning := by
  unfold clearTimerInterval; split <;> rfl

theorem clearTimerInterval_clients (st : ServerState) :
    (clearTimerInterval st).clients = st.clients := by
  unfold clearTimerInterval; split <;> rfl

/-- Every message produced by `broadcastAll` carries the broadcast payload. -/
theorem msg_of_mem_broadcastAll {st : ServerState} {m : OutMsg} {s : Send}
    (h : s ∈ broadcastAll st m) : s.msg = m := by
  simp only [broadcastAll, List.mem_filterMap] at h
  obtain ⟨c, _, hc⟩ := h
  by_cases hOpen : c.isOpen
  · simp [hOpen] at hc; rw [← hc]
  · simp [hOpen] at hc

/-- Every message produced by `broadcastAdmins` carries the broadcast
payload. -/
theorem msg_of_mem_broadcastAdmins {st : ServerState} {m : OutMsg} {s : Send}
    (h : s ∈ broadcastAdmins st m) : s.msg = m := by
  simp only [broadcastAdmins, List.mem_filterMap] at h
  obtain ⟨c, _, hc⟩ := h
  by_cases hOpen : c.isAdmin && c.isOpen
  · simp [hOpen] at hc; rw [← hc]
  · simp [hOpen] at hc

/-- Summing the per-evaluation `(t + p + d) / 3` terms equals summing each
dimension separately and dividing by 3 (the two `overallScore` formulas of
`server/ai.ts` aggregate the same rationals). -/
theorem sum_ratings_div_three (l : List Evaluation) :
    (l.map (fun e => ((e.technicalContent : ℚ) + (e.presentationSkills : ℚ)
        + (e.projectDemo : ℚ)) / 3)).sum
      = ((l.map (fun e => (e.technicalContent : ℚ))).sum
          + (l.map (fun e => (e.presentationSkills : ℚ))).sum
          + (l.map (fun e => (e.projectDemo : ℚ))).sum) / 3 := by
  induction l with
  | nil => simp
  | cons e t ih =>
      simp only [List.map_cons, List.sum_cons, ih]
      ring

/-- Unconditional field identity relating the two averaging orders. -/
theorem div_three_div_n (a b c n : ℚ) :
    (a + b + c) / 3 / n * 10 = (a / n + b / n + c / n) / 3 * 10 := by
  rw [div_add_div_same, div_add_div_same, div_div, div_div]
  ring

/-! ## C8: fallback determinism of `generateAIFeedback` -/

/-- C8: for every non-empty evaluation list and every team, when the external
generator call fails (`ext = none`), `generateAIFeedback` returns (it is a
total function, so it never throws) the fixed 3-item strengths list, the
fixed 3-item improvements list, and an `overallScore` equal to
`round((mean of the three per-dimension means) × 10)` — the same value the
success path computes. -/
theorem c8_fallback_determinism (evaluations : List Evaluation) (team : Option Team)
    (result : ExtResult) (h : evaluations ≠ []) :
    generateAIFeedback evaluations team none =
      { strengths := fallbackStrengths, improvements := fallbackImprovements,
        overallScore := jsRound
          (((evaluations.map (fun e => (e.technicalContent : ℚ))).sum
                / (evaluations.length : ℚ)
              + (evaluations.map (fun e => (e.presentationSkills : ℚ))).sum
                / (evaluations.length : ℚ)
              + (evaluations.map (fun e => (e.projectDemo : ℚ))).sum
                / (evaluations.length : ℚ)) / 3 * 10) } ∧
    (generateAIFeedback evaluations team none).overallScore
      = (generateAIFeedback evaluations team (some result)).overallScore := by
  have harg :
      (evaluations.map (fun e => ((e.technicalContent : ℚ) + (e.presentationSkills : ℚ)
          + (e.projectDemo : ℚ)) / 3)).sum / (evaluations.length : ℚ) * 10
        = ((evaluations.map (fun e => (e.technicalContent : ℚ))).sum
              / (evaluations.length : ℚ)
            + (evaluations.map (fun e => (e.presentationSkills : ℚ))).sum
              / (evaluations.length : ℚ)
            + (evaluations.map (fun e => (e.projectDemo : ℚ))).sum
              / (evaluations.length : ℚ)) / 3 * 10 := by
    rw [sum_ratings_div_three, div_three_div_n]
  exact ⟨congrArg
      (fun z => Feedback.mk fallbackStrengths fallbackImprovements (jsRound z)) harg,
    congrArg jsRound harg⟩

/-- Witness for C8 at a concrete input: one evaluation with ratings 8, 7, 5
gives `round(20/3 × 10) = 67` on both the fallback and the success path. -/
theorem c8_fallback_determinism_witness :
    ([eval0] : List Evaluation) ≠ [] ∧
    (generateAIFeedback [eval0] none none).overallScore
      = (generateAIFeedback [eval0] none (some ⟨["x"], ["y"]⟩)).overallScore ∧
    (generateAIFeedback [eval0] none none).strengths = fallbackStrengths ∧
    (generateAIFeedback [eval0] none none).overallScore = 67 :=
  ⟨by simp,
   (c8_fallback_determinism [eval0] none ⟨["x"], ["y"]⟩ (by simp)).2,
   rfl,
   by norm_num [generateAIFeedback, jsRound, eval0]⟩

/-! ## C10: timer_start requires an active session; pause/reset do not -/

/-- C10: when no session is active, an admin's `timer_start` yields only the
`"No active presentation"` error reply to the caller, the state (in
particular the counter) is unchanged and nothing is broadcast; `timer_pause`
and `timer_reset` have no such precondition — they proceed, emitting only
`timer_update` messages. -/
theorem c10_timer_start_precondition (st : ServerState) (sender : Client)
    (hA : sender.isAdmin = true) (hN : st.activeSession = none) :
    timerStart st sender
      = (st, [⟨sender.cid, OutMsg.errorMsg "No active presentation"⟩]) ∧
    (∀ m ∈ (timerPause st sender).2,
      m.msg = OutMsg.timerUpdate st.timerSeconds false) ∧
    (timerPause st sender).1.isTimerRunning = false ∧
    (∀ m ∈ (timerReset st sender).2, m.msg = OutMsg.timerUpdate 0 false) ∧
    (timerReset st sender).1.timerSeconds = 0 ∧
    (timerReset st sender).1.isTimerRunning = false := by
  refine ⟨by simp [timerStart, hA, hN], ?_, ?_, ?_, ?_, ?_⟩
  · intro m hm
    simp only [timerPause, hA, Bool.not_true, Bool.false_eq_true, if_false] at hm
    have := msg_of_mem_broadcastAll hm
    rwa [clearTimerInterval_timerSeconds, clearTimerInterval_isTimerRunning] at this
  · simp [timerPause, hA, clearTimerInterval_isTimerRunning]
  · intro m hm
    simp only [timerReset, hA, Bool.not_true, Bool.false_eq_true, if_false] at hm
    have := msg_of_mem_broadcastAll hm
    rwa [clearTimerInterval_timerSeconds, clearTimerInterval_isTimerRunning] at this
  · simp [timerReset, hA, clearTimerInterval_timerSeconds]
  · simp [timerReset, hA, clearTimerInterval_isTimerRunning]

/-- Witness for C10: the concrete idle state (no active session). -/
theorem c10_timer_start_precondition_witness :
    adminClient.isAdmin = true ∧
    ({ baseState with activeSession := none } : ServerState).activeSession = none ∧
    timerStart { baseState with activeSession := none } adminClient
      = ({ baseState with activeSession := none },
         [⟨adminClient.cid, OutMsg.errorMsg "No active presentation"⟩]) ∧
    (timerReset { baseState with activeSession := none } adminClient).1.timerSeconds
      = 0 :=
  ⟨rfl, rfl,
   (c10_timer_start_precondition { baseState with activeSession := none }
      adminClient rfl rfl).1,
   (c10_timer_start_precondition { baseState with activeSession := none }
      adminClient rfl rfl).2.2.2.2.1⟩

/-! ## C7: timer_start idempotence -/

/-- C7: `timer_start` is idempotent.  From any state whose live tick streams
match the stored handle (at most one stream), an admin issuing `timer_start`
twice in a row while a session is active leaves exactly one tick stream — the
second command creates no second stream — so one tick period still increments
the counter by exactly one. -/
theorem c7_timer_start_idempotent (st : ServerState) (sender : Client)
    (sess : PresentationSession) (hA : sender.isAdmin = true)
    (hS : st.activeSession = some sess)
    (hInv : st.tickStreams = if st.timerInterval then 1 else 0) :
    ((timerStart (timerStart st sender).1 sender).1.tickStreams
        = (timerStart st sender).1.tickStreams) ∧
    (timerStart (timerStart st sender).1 sender).1.tickStreams = 1 ∧
    ((tickPeriod (timerStart (timerStart st sender).1 sender).1).1.timerSeconds
        = (timerStart (timerStart st sender).1 sender).1.timerSeconds + 1) := by
  cases hTI : st.timerInterval <;>
    simp_all [timerStart, tickPeriod, tickCallback, List.range_succ]

/-- Witness for C7: `baseState` (no stream yet) with its active session. -/
theorem c7_timer_start_idempotent_witness :
    adminClient.isAdmin = true ∧ baseState.activeSession = some sess1 ∧
    (baseState.tickStreams = if baseState.timerInterval then 1 else 0) ∧
    (timerStart (timerStart baseState adminClient).1 adminClient).1.tickStreams
      = 1 :=
  ⟨rfl, rfl, rfl,
   (c7_timer_start_idempotent baseState adminClient sess1 rfl rfl rfl).2.1⟩

/-! ## C3: anonymous connections -/

/-- Whether a send is an `error{message}` reply. -/
def sendIsError (s : Send) : Bool :=
  match s.msg with
  | OutMsg.errorMsg _ => true
  | _ => false

/-- C3 counterexample: the claim says every `submit_evaluation` from an
anonymous connection (userId 0, isAdmin false) is rejected with an error
reply and stores no Evaluation.  At the concrete state `baseState` (session
active, no prior evaluation) the anonymous submit mutates the evaluation
store — an Evaluation with `peerId = 0` is created — and no error is sent. -/
theorem c3_counterexample :
    ¬ ((submitEvaluation baseState anonClient ⟨7, 7, 7, none, none⟩ 5).1.storage.evaluations
        = baseState.storage.evaluations) ∧
    ¬ (∃ m ∈ (submitEvaluation baseState anonClient ⟨7, 7, 7, none, none⟩ 5).2,
        sendIsError m = true) ∧
    (submitEvaluation baseState anonClient ⟨7, 7, 7, none, none⟩ 5).1.storage.evaluations.map
        (fun e => e.peerId) = [0] := by
  refine ⟨?_, ?_, ?_⟩ <;> decide

/-- C3 amended: every privileged command (start, end, timer start/pause/reset,
screen-share start/stop) from an anonymous connection is rejected with an
error reply to that connection only and mutates no state; `submit_evaluation`,
however, is not rejected: while a session is active and no evaluation for
`(session, 0)` exists, it stores an Evaluation with `peerId = 0`. -/
theorem c3_anonymous_connection (st : ServerState) (sender : Client)
    (teamId now : Nat) (ext : Option ExtResult) (payload : EvalPayload)
    (sess : PresentationSession)
    (hU : sender.userId = 0) (hA : sender.isAdmin = false)
    (hS : st.activeSession = some sess)
    (hD : st.storage.getEvaluationBySessionAndPeer sess.id 0 = none) :
    startPresentation st sender teamId now
      = (st, [⟨sender.cid, OutMsg.errorMsg "Only admins can start presentations"⟩]) ∧
    endPresentation st sender now ext
      = (st, [⟨sender.cid, OutMsg.errorMsg "Only admins can end presentations"⟩]) ∧
    timerStart st sender
      = (st, [⟨sender.cid, OutMsg.errorMsg "Only admins can control the timer"⟩]) ∧
    timerPause st sender
      = (st, [⟨sender.cid, OutMsg.errorMsg "Only admins can control the timer"⟩]) ∧
    timerReset st sender
      = (st, [⟨sender.cid, OutMsg.errorMsg "Only admins can control the timer"⟩]) ∧
    screenShareStartHandler st sender
      = (st, [⟨sender.cid, OutMsg.errorMsg "Only admins can share screen"⟩]) ∧
    screenShareStopHandler st sender
      = (st, [⟨sender.cid, OutMsg.errorMsg "Only admins can stop screen share"⟩]) ∧
    (submitEvaluation st sender payload now).1.storage.evaluations
      = st.storage.evaluations ++
        [{ id := st.storage.currentEvaluationId, sessionId := sess.id, peerId := 0,
           technicalContent := payload.technicalContent,
           presentationSkills := payload.presentationSkills,
           projectDemo := payload.projectDemo,
           positivePoints := payload.positivePoints,
           negativePoints := payload.negativePoints, submittedAt := now }] := by
  refine ⟨?_, ?_, ?_, ?_, ?_, ?_, ?_, ?_⟩
  · simp [startPresentation, hA]
  · simp [endPresentation, hA]
  · simp [timerStart, hA]
  · simp [timerPause, hA]
  · simp [timerReset, hA]
  · simp [screenShareStartHandler, hA]
  · simp [screenShareStopHandler, hA]
  · simp [submitEvaluation, hS, hA, hU, hD, Storage.createEvaluation]

/-- Witness for C3 amended, at `baseState` with the anonymous connection. -/
theorem c3_anonymous_connection_witness :
    anonClient.userId = 0 ∧ anonClient.isAdmin = false ∧
    baseState.activeSession = some sess1 ∧
    baseState.storage.getEvaluationBySessionAndPeer sess1.id 0 = none ∧
    timerStart baseState anonClient
      = (baseState,
         [⟨anonClient.cid, OutMsg.errorMsg "Only admins can control the timer"⟩]) :=
  ⟨rfl, rfl, rfl, by decide,
   (c3_anonymous_connection baseState anonClient 1 0 none ⟨7, 7, 7, none, none⟩ sess1
      rfl rfl rfl (by decide)).2.2.1⟩

/-! ## C4: out-of-range ratings -/

/-- C4 counterexample: the claim says a payload with a rating outside
`[1,10]` fails validation, yields an `error{message}` reply and stores
nothing.  At `baseState`, a registered peer submitting `technicalContent = 11`
has the Evaluation stored (the server-side `insertEvaluationSchema` carries no
range bound) and receives no error reply. -/
theorem c4_counterexample :
    ¬ ((submitEvaluation baseState peerClient ⟨11, 7, 7, none, none⟩ 5).1.storage.evaluations
        = baseState.storage.evaluations) ∧
    ¬ (∃ m ∈ (submitEvaluation baseState peerClient ⟨11, 7, 7, none, none⟩ 5).2,
        sendIsError m = true) ∧
    (submitEvaluation baseState peerClient ⟨11, 7, 7, none, none⟩ 5).1.storage.evaluations.map
        (fun e => e.technicalContent) = [11] := by
  refine ⟨?_, ?_, ?_⟩ <;> decide

/-- C4 amended: `submit_evaluation` performs no range validation — for every
payload (ratings of any integer value, e.g. outside `[1,10]`), a submission
by a non-admin with an active session and no prior evaluation stores the
ratings verbatim and replies `evaluation_submitted{success:true}`; no
`error{message}` is produced.  (`[1,10]` is enforced only by the client-side
`evaluationFormSchema`; a schema failure in the socket handler would in any
case be logged without any error reply.) -/
theorem c4_no_range_validation (st : ServerState) (sender : Client)
    (payload : EvalPayload) (now : Nat) (sess : PresentationSession)
    (hS : st.activeSession = some sess) (hA : sender.isAdmin = false)
    (hD : st.storage.getEvaluationBySessionAndPeer sess.id sender.userId = none) :
    (submitEvaluation st sender payload now).1.storage.evaluations
      = st.storage.evaluations ++
        [{ id := st.storage.currentEvaluationId, sessionId := sess.id,
           peerId := sender.userId,
           technicalContent := payload.technicalContent,
           presentationSkills := payload.presentationSkills,
           projectDemo := payload.projectDemo,
           positivePoints := payload.positivePoints,
           negativePoints := payload.negativePoints, submittedAt := now }] ∧
    (submitEvaluation st sender payload now).2.getLast?
      = some ⟨sender.cid, OutMsg.evaluationSubmitted true⟩ ∧
    ∀ m ∈ (submitEvaluation st sender payload now).2, sendIsError m = false := by
  refine ⟨?_, ?_, ?_⟩
  · simp [submitEvaluation, hS, hA, hD, Storage.createEvaluation]
  · simp [submitEvaluation, hS, hA, hD]
  · intro m hm
    simp only [submitEvaluation, hS, hA, Bool.false_eq_true, if_false, hD] at hm
    rw [List.mem_append] at hm
    rcases hm with hm | hm
    · have hb := msg_of_mem_broadcastAdmins hm
      simp [sendIsError, hb]
    · rw [List.mem_singleton] at hm
      subst hm
      rfl

/-- Witness for C4 amended, at `baseState` with `technicalContent = 11`. -/
theorem c4_no_range_validation_witness :
    baseState.activeSession = some sess1 ∧ peerClient.isAdmin = false ∧
    baseState.storage.getEvaluationBySessionAndPeer sess1.id peerClient.userId
      = none ∧
    (submitEvaluation baseState peerClient ⟨11, 2, 3, none, none⟩ 5).2.getLast?
      = some ⟨peerClient.cid, OutMsg.evaluationSubmitted true⟩ :=
  ⟨rfl, rfl, by decide,
   (c4_no_range_validation baseState peerClient ⟨11, 2, 3, none, none⟩ 5 sess1
      rfl rfl (by decide)).2.1⟩

/-! ## C5: the timer counter is not zeroed by the end transition -/

/-- `baseState` with the timer at 5 seconds and running. -/
def c5State : ServerState :=
  { baseState with
    timerSeconds := 5
    isTimerRunning := true
    timerInterval := true
    tickStreams := 1 }

/-- C5: behaviour of the code at the failing input.  Ending the presentation
with the counter at 5 broadcasts a hardcoded `timer_update{0,false}` to every
connection, but the internal `timerSeconds` variable keeps the value 5, so the
very next `get_state` (or a fresh connection snapshot) reports
`timer_update{5,false}` — contradicting both the zero the end broadcast just
announced and the specified zeroing of the timer. -/
theorem c5_timer_not_zeroed :
    (endPresentation c5State adminClient 50 none).1.timerSeconds = 5 ∧
    (∃ m ∈ (endPresentation c5State adminClient 50 none).2,
        m.msg = OutMsg.timerUpdate 0 false) ∧
    sendState (endPresentation c5State adminClient 50 none).1 adminClient
      = [⟨1, OutMsg.timerUpdate 5 false⟩, ⟨1, OutMsg.peersUpdate [(1, "A")]⟩] := by
  refine ⟨?_, ?_, ?_⟩ <;> decide

/-! ## C6: at most one evaluation per (session, peer) -/

/-- Creating an evaluation for a `(sessionId, peerId)` pair that had none
makes `getEvaluationBySessionAndPeer` find exactly the created row. -/
theorem getEvaluation_after_create (stor : Storage) (ins : InsertEvaluation)
    (hD : stor.getEvaluationBySessionAndPeer ins.sessionId ins.peerId = none) :
    (stor.createEvaluation ins).1.getEvaluationBySessionAndPeer ins.sessionId ins.peerId
      = some (stor.createEvaluation ins).2 := by
  unfold Storage.getEvaluationBySessionAndPeer Storage.createEvaluation at *
  rw [List.find?_append, hD]
  simp

/-- After such a creation, exactly one stored evaluation matches the pair. -/
theorem filter_after_create (stor : Storage) (ins : InsertEvaluation)
    (hD : stor.getEvaluationBySessionAndPeer ins.sessionId ins.peerId = none) :
    ((stor.createEvaluation ins).1.evaluations.filter
        (fun e => e.sessionId == ins.sessionId && e.peerId == ins.peerId)).length = 1 := by
  unfold Storage.getEvaluationBySessionAndPeer Storage.createEvaluation at *
  rw [List.filter_append]
  have h0 : stor.evaluations.filter
      (fun e => e.sessionId == ins.sessionId && e.peerId == ins.peerId) = [] := by
    rw [List.filter_eq_nil_iff]
    intro a ha
    have := List.find?_eq_none.1 hD a ha
    simpa using this
  simp [h0]

/-- C6: for every active session and peer identity, submitting twice for the
same `(session, peer)` pair stores exactly one Evaluation; the second attempt
receives only the duplicate-submission error reply and changes no state. -/
theorem c6_duplicate_submission (st : ServerState) (sender : Client)
    (p1 p2 : EvalPayload) (t1 t2 : Nat) (sess : PresentationSession)
    (hS : st.activeSession = some sess) (hA : sender.isAdmin = false)
    (hD : st.storage.getEvaluationBySessionAndPeer sess.id sender.userId = none) :
    (submitEvaluation (submitEvaluation st sender p1 t1).1 sender p2 t2).1
      = (submitEvaluation st sender p1 t1).1 ∧
    (submitEvaluation (submitEvaluation st sender p1 t1).1 sender p2 t2).2
      = [⟨sender.cid,
          OutMsg.errorMsg "You have already submitted an evaluation for this presentation"⟩] ∧
    ((submitEvaluation st sender p1 t1).1.storage.evaluations.filter
        (fun e => e.sessionId == sess.id && e.peerId == sender.userId)).length = 1 := by
  have hins : (InsertEvaluation.mk sess.id sender.userId p1.technicalContent
      p1.presentationSkills p1.projectDemo p1.positivePoints p1.negativePoints t1).sessionId
      = sess.id := rfl
  have hfst : (submitEvaluation st sender p1 t1).1
      = { st with storage := (st.storage.createEvaluation
          (InsertEvaluation.mk sess.id sender.userId p1.technicalContent
            p1.presentationSkills p1.projectDemo p1.positivePoints p1.negativePoints t1)).1 } := by
    simp [submitEvaluation, hS, hA, hD]
  have hdup := getEvaluation_after_create st.storage
    (InsertEvaluation.mk sess.id sender.userId p1.technicalContent
      p1.presentationSkills p1.projectDemo p1.positivePoints p1.negativePoints t1) hD
  refine ⟨?_, ?_, ?_⟩
  · rw [hfst]
    simp [submitEvaluation, hS, hA, hdup]
  · rw [hfst]
    simp [submitEvaluation, hS, hA, hdup]
  · rw [hfst]
    exact filter_after_create st.storage
      (InsertEvaluation.mk sess.id sender.userId p1.technicalContent
        p1.presentationSkills p1.projectDemo p1.positivePoints p1.negativePoints t1) hD

/-- Witness for C6 at `baseState`: userId 5 submits twice for `sess1`. -/
theorem c6_duplicate_submission_witness :
    baseState.activeSession = some sess1 ∧ peerClient.isAdmin = false ∧
    baseState.storage.getEvaluationBySessionAndPeer sess1.id peerClient.userId = none ∧
    (submitEvaluation (submitEvaluation baseState peerClient ⟨8, 7, 9, none, none⟩ 3).1
        peerClient ⟨1, 1, 1, none, none⟩ 4).2
      = [⟨peerClient.cid,
          OutMsg.errorMsg "You have already submitted an evaluation for this presentation"⟩] :=
  ⟨rfl, rfl, by decide,
   (c6_duplicate_submission baseState peerClient ⟨8, 7, 9, none, none⟩ ⟨1, 1, 1, none, none⟩
      3 4 sess1 rfl rfl (by decide)).2.1⟩

/-! ## C9: broadcast averages are the arithmetic means -/

/-- Arithmetic mean of a list of rationals (`sum / length`). -/
def mean (l : List ℚ) : ℚ := l.sum / (l.length : ℚ)

/-- `submit_evaluation` never alters the connection registry. -/
theorem submitEvaluation_clients (st : ServerState) (sender : Client)
    (payload : EvalPayload) (now : Nat) :
    (submitEvaluation st sender payload now).1.clients = st.clients := by
  unfold submitEvaluation
  repeat' split
  all_goals rfl

/-- `broadcastAdmins` depends only on the connection registry. -/
theorem broadcastAdmins_congr {st st' : ServerState} (h : st.clients = st'.clients)
    (m : OutMsg) : broadcastAdmins st m = broadcastAdmins st' m := by
  unfold broadcastAdmins
  rw [h]

/-- C9: on every successful submission, the `evaluation_update` broadcast to
admins carries, per dimension, the arithmetic mean over all stored
evaluations of the session, with `overall` the mean of the three
dimension-means, followed by the ack to the submitter. -/
theorem c9_averages (st : ServerState) (sender : Client) (payload : EvalPayload)
    (now : Nat) (sess : PresentationSession)
    (hS : st.activeSession = some sess) (hA : sender.isAdmin = false)
    (hD : st.storage.getEvaluationBySessionAndPeer sess.id sender.userId = none)
    (evs : List Evaluation)
    (hevs : evs = (submitEvaluation st sender payload now).1.storage.getEvaluationsBySessionId
      sess.id) :
    (submitEvaluation st sender payload now).2
      = broadcastAdmins (submitEvaluation st sender payload now).1
          (OutMsg.evaluationUpdate evs
            { technicalContent := mean (evs.map (fun e => (e.technicalContent : ℚ))),
              presentationSkills := mean (evs.map (fun e => (e.presentationSkills : ℚ))),
              projectDemo := mean (evs.map (fun e => (e.projectDemo : ℚ))),
              overall := (mean (evs.map (fun e => (e.technicalContent : ℚ)))
                  + mean (evs.map (fun e => (e.presentationSkills : ℚ)))
                  + mean (evs.map (fun e => (e.projectDemo : ℚ)))) / 3 })
        ++ [⟨sender.cid, OutMsg.evaluationSubmitted true⟩] := by
  subst hevs
  simp [submitEvaluation, hS, hA, hD, mean]

/-- Witness for C9 at the spec's concrete example: evaluations with
technicalContent [8,6], presentationSkills [7,9], projectDemo [5,7] yield
broadcast averages {7, 8, 6, 7}. -/
theorem c9_averages_witness :
    evalState.activeSession = some sess1 ∧ peer2Client.isAdmin = false ∧
    evalState.storage.getEvaluationBySessionAndPeer sess1.id peer2Client.userId = none ∧
    (submitEvaluation evalState peer2Client ⟨6, 9, 7, none, none⟩ 9).2
      = [⟨1, OutMsg.evaluationUpdate [eval0, ⟨2, 1, 6, 6, 9, 7, none, none, 9⟩]
            ⟨7, 8, 6, 7⟩⟩,
         ⟨4, OutMsg.evaluationSubmitted true⟩] := by
  refine ⟨rfl, rfl, by decide, ?_⟩
  have h := c9_averages evalState peer2Client ⟨6, 9, 7, none, none⟩ 9 sess1 rfl rfl
    (by decide) [eval0, ⟨2, 1, 6, 6, 9, 7, none, none, 9⟩] (by decide)
  norm_num [mean, eval0] at h
  rw [h, broadcastAdmins_congr
    (submitEvaluation_clients evalState peer2Client ⟨6, 9, 7, none, none⟩ 9) _]
  simp [broadcastAdmins, evalState, baseState, adminClient, peerClient,
    anonClient, peer2Client, eval0]

/-! ## C2: ordering of feedback synthesis and the end transition -/

/-- Whether a send is a `session_end` broadcast. -/
def sendIsSessionEnd (s : Send) : Bool :=
  match s.msg with
  | OutMsg.sessionEnd => true
  | _ => false

/-- Whether a send is a `feedback_update` broadcast. -/
def sendIsFeedback (s : Send) : Bool :=
  match s.msg with
  | OutMsg.feedbackUpdate _ => true
  | _ => false

/-- C2 counterexample: the claim says the `feedback_update` broadcast (and the
AIFeedback persistence) never occur before the end transition completes, i.e.
after the `session_end` broadcast.  In the concrete run (active session, one
evaluation, external call succeeding) the emitted trace contains both kinds
of message, and the first `session_end` does **not** precede the first
`feedback_update` — the feedback broadcast comes first. -/
theorem c2_counterexample :
    ((endPresentation evalState adminClient 50 (some ⟨["s"], ["i"]⟩)).2.any
        sendIsFeedback = true) ∧
    ((endPresentation evalState adminClient 50 (some ⟨["s"], ["i"]⟩)).2.any
        sendIsSessionEnd = true) ∧
    ¬ ((endPresentation evalState adminClient 50 (some ⟨["s"], ["i"]⟩)).2.findIdx
          sendIsSessionEnd
        < (endPresentation evalState adminClient 50 (some ⟨["s"], ["i"]⟩)).2.findIdx
          sendIsFeedback) := by
  refine ⟨?_, ?_, ?_⟩ <;> decide

/-- `createAIFeedback` leaves the session map untouched. -/
theorem createAIFeedback_sessions (stor : Storage) (ins : InsertAIFeedback) :
    (stor.createAIFeedback ins).1.sessions = stor.sessions := rfl

/-- `updatePresentationSession` on a present id performs the patch. -/
theorem updatePresentationSession_of_mem (stor : Storage) (id : Nat) (p : SessionPatch)
    (h : stor.sessions.any (fun s => s.id == id) = true) :
    stor.updatePresentationSession id p
      = some { stor with
               sessions := stor.sessions.map
                 (fun s => if s.id == id then applySessionPatch s p else s) } := by
  unfold Storage.updatePresentationSession
  rw [if_pos h]

/-- The feedback row just created is stored with the requested session id. -/
theorem mem_aiFeedbacks_create (stor : Storage) (ins : InsertAIFeedback) :
    ∃ f ∈ (stor.createAIFeedback ins).1.aiFeedbacks, f.sessionId = ins.sessionId :=
  ⟨(stor.createAIFeedback ins).2,
   by unfold Storage.createAIFeedback; simp, rfl⟩

/-- C2 amended: the end transition performs feedback synthesis synchronously
**before** completing.  With an active, stored session carrying at least one
evaluation, the emitted trace is the `feedback_update` broadcast (over the
pre-transition registry) followed by the `session_end` / `timer_update{0,false}`
pairs; the AIFeedback row is persisted, and only then is the session marked
inactive with `endTime = now` and the active session cleared.  The synthesis
cannot fail the transition (the external-call failure is absorbed into the
fallback), but it precedes — and therefore blocks — the transition broadcast
instead of following it. -/
theorem c2_feedback_before_end (st : ServerState) (sender : Client) (now : Nat)
    (ext : Option ExtResult) (sess : PresentationSession)
    (hA : sender.isAdmin = true) (hS : st.activeSession = some sess)
    (hIn : st.storage.sessions.any (fun s => s.id == sess.id) = true)
    (hEv : 0 < (st.storage.getEvaluationsBySessionId sess.id).length) :
    (endPresentation st sender now ext).2
      = broadcastAll st (OutMsg.feedbackUpdate
          (generateAIFeedback (st.storage.getEvaluationsBySessionId sess.id)
            st.activeTeam ext))
        ++ st.clients.flatMap (fun c =>
            if c.isOpen then [⟨c.cid, OutMsg.sessionEnd⟩, ⟨c.cid, OutMsg.timerUpdate 0 false⟩]
            else []) ∧
    (endPresentation st sender now ext).1.activeSession = none ∧
    (∃ f ∈ (endPresentation st sender now ext).1.storage.aiFeedbacks,
        f.sessionId = sess.id) ∧
    (∀ s ∈ (endPresentation st sender now ext).1.storage.sessions,
        s.id = sess.id → s.isActive = false ∧ s.endTime = some now) := by
  have hupd := updatePresentationSession_of_mem
    ((st.storage.createAIFeedback
      { sessionId := sess.id,
        strengths := (generateAIFeedback (st.storage.getEvaluationsBySessionId sess.id)
          st.activeTeam ext).strengths,
        improvements := (generateAIFeedback (st.storage.getEvaluationsBySessionId sess.id)
          st.activeTeam ext).improvements,
        overallScore := (generateAIFeedback (st.storage.getEvaluationsBySessionId sess.id)
          st.activeTeam ext).overallScore,
        generatedAt := now }).1) sess.id
    { endTime := some (some now), isActive := some false }
    (by rw [createAIFeedback_sessions]; exact hIn)
  refine ⟨?_, ?_, ?_, ?_⟩
  · simp [endPresentation, hA, hS, hEv, hupd, clearTimerInterval_clients]
  · simp [endPresentation, hA, hS, hEv, hupd, clearTimerInterval_activeSession]
  · simp only [endPresentation, hA, Bool.not_true, Bool.false_eq_true, if_false, hS,
      hEv, gt_iff_lt, if_pos, hupd, clearTimerInterval_storage]
    exact mem_aiFeedbacks_create _ _
  · intro s hs hid
    simp only [endPresentation, hA, Bool.not_true, Bool.false_eq_true, if_false, hS,
      hEv, gt_iff_lt, if_pos, hupd, clearTimerInterval_storage] at hs
    rw [List.mem_map] at hs
    obtain ⟨s', hs', rfl⟩ := hs
    by_cases hbe : s'.id == sess.id
    · simp [hbe, applySessionPatch]
    · rw [if_neg hbe] at hid ⊢
      exact absurd (by simpa using hid) (by simpa using hbe)

/-- Witness for C2 amended, at the concrete one-evaluation state. -/
theorem c2_feedback_before_end_witness :
    adminClient.isAdmin = true ∧ evalState.activeSession = some sess1 ∧
    evalState.storage.sessions.any (fun s => s.id == sess1.id) = true ∧
    0 < (evalState.storage.getEvaluationsBySessionId sess1.id).length ∧
    (endPresentation evalState adminClient 50 none).1.activeSession = none :=
  ⟨rfl, rfl, by decide, by decide,
   (c2_feedback_before_end evalState adminClient 50 none sess1 rfl rfl
      (by decide) (by decide)).2.1⟩

/-! ## C1: at most one active session -/

/-- Number of stored sessions with `isActive = true`. -/
def countActive (l : List PresentationSession) : Nat :=
  l.countP (fun s => s.isActive)

/-- Invariant of the session store maintained by start commands: every
session except possibly the last is inactive with an `endTime`, the last (if
any) is active, and ids are strictly increasing and below the id counter. -/
def SessionsInv (stor : Storage) : Prop :=
  (∀ s ∈ stor.sessions.dropLast, s.isActive = false ∧ s.endTime ≠ none) ∧
  (stor.sessions.getLast?.all (fun s => s.isActive) = true) ∧
  List.Chain' (fun a b => a < b) (stor.sessions.map (fun s => s.id)) ∧
  (∀ s ∈ stor.sessions, s.id < stor.currentSessionId)

/-- Run a sequence of `start_presentation` commands
`(sender, teamId, now)` through the handler. -/
def runStarts (st : ServerState) (cmds : List (Client × Nat × Nat)) : ServerState :=
  cmds.foldl (fun s c => (startPresentation s c.1 c.2.1 c.2.2).1) st

/-- Reduction of `createPresentationSession` when no session is active. -/
theorem createPresentationSession_eq_none (stor : Storage)
    (ins : InsertPresentationSession) (now : Nat)
    (hact : stor.getActivePresentationSession = none) :
    stor.createPresentationSession ins now
      = ({ stor with
           sessions := stor.sessions ++
             [{ id := stor.currentSessionId, teamId := ins.teamId,
                startTime := ins.startTime, endTime := none, isActive := ins.isActive,
                createdBy := ins.createdBy }]
           currentSessionId := stor.currentSessionId + 1 },
         { id := stor.currentSessionId, teamId := ins.teamId,
           startTime := ins.startTime, endTime := none, isActive := ins.isActive,
           createdBy := ins.createdBy }) := by
  unfold Storage.createPresentationSession
  rw [hact]

/-- Reduction of `createPresentationSession` when a session is active and the
deactivating update succeeds. -/
theorem createPresentationSession_eq_some (stor : Storage)
    (ins : InsertPresentationSession) (now : Nat) (a : PresentationSession)
    (upd : Storage) (hact : stor.getActivePresentationSession = some a)
    (hupd : stor.updatePresentationSession a.id
        { endTime := some (some now), isActive := some false } = some upd) :
    stor.createPresentationSession ins now
      = ({ upd with
           sessions := upd.sessions ++
             [{ id := upd.currentSessionId, teamId := ins.teamId,
                startTime := ins.startTime, endTime := none, isActive := ins.isActive,
                createdBy := ins.createdBy }]
           currentSessionId := upd.currentSessionId + 1 },
         { id := upd.currentSessionId, teamId := ins.teamId,
           startTime := ins.startTime, endTime := none, isActive := ins.isActive,
           createdBy := ins.createdBy }) := by
  unfold Storage.createPresentationSession
  rw [hact]
  simp only [hupd, Option.getD_some]

/-- Core storage lemma: creating an active session from an invariant-holding
store deactivates the previously active session (stamping its `endTime`),
keeps the invariant, and leaves the new session as the unique active one,
stored last. -/
theorem createPresentationSession_active (stor : Storage)
    (ins : InsertPresentationSession) (now : Nat)
    (hInv : SessionsInv stor) (hActive : ins.isActive = true) :
    SessionsInv (stor.createPresentationSession ins now).1 ∧
    (stor.createPresentationSession ins now).1.sessions.getLast?
      = some (stor.createPresentationSession ins now).2 ∧
    countActive (stor.createPresentationSession ins now).1.sessions = 1 := by
  obtain ⟨hDrop, hLast, hChain, hBound⟩ := hInv
  rcases List.eq_nil_or_concat stor.sessions with hnil | ⟨init, last, heq⟩
  · -- no session stored yet: nothing to deactivate
    have hact : stor.getActivePresentationSession = none := by
      unfold Storage.getActivePresentationSession
      rw [hnil]
      rfl
    rw [createPresentationSession_eq_none stor ins now hact]
    refine ⟨⟨?_, ?_, ?_, ?_⟩, ?_, ?_⟩
    · simp [hnil]
    · simp [hnil, hActive]
    · simp [hnil]
    · simp [hnil]
    · simp [hnil]
    · simp [hnil, countActive, hActive]
  · rw [List.concat_eq_append] at heq
    have hlastActive : last.isActive = true := by
      rw [heq, List.getLast?_concat] at hLast
      simpa using hLast
    have hinit : ∀ s ∈ init, s.isActive = false ∧ s.endTime ≠ none := by
      rw [heq, List.dropLast_concat] at hDrop
      exact hDrop
    have hfind_init : init.find? (fun s => s.isActive) = none := by
      rw [List.find?_eq_none]
      intro x hx
      simp [(hinit x hx).1]
    have hact : stor.getActivePresentationSession = some last := by
      unfold Storage.getActivePresentationSession
      rw [heq, List.find?_append, hfind_init]
      simp [List.find?, hlastActive]
    have hpair : List.Pairwise (fun a b => a < b)
        (init.map (fun s => s.id) ++ [last.id]) := by
      have := List.chain'_iff_pairwise.1 hChain
      rw [heq] at this
      simpa using this
    have hinitlt : ∀ s ∈ init, s.id < last.id := by
      intro s hs
      have h2 := (List.pairwise_append.1 hpair).2.2
      exact h2 _ (List.mem_map_of_mem _ hs) _ (List.mem_singleton.2 rfl)
    have hmap : stor.sessions.map (fun s =>
          if s.id == last.id then
            applySessionPatch s { endTime := some (some now), isActive := some false }
          else s)
        = init ++ [applySessionPatch last
            { endTime := some (some now), isActive := some false }] := by
      rw [heq, List.map_append]
      congr 1
      · have hid : ∀ s ∈ init, (if s.id == last.id then
            applySessionPatch s { endTime := some (some now), isActive := some false }
            else s) = id s := by
          intro s hs
          rw [if_neg]
          · rfl
          · simp [Nat.ne_of_lt (hinitlt s hs)]
        rw [List.map_congr_left hid, List.map_id]
      · simp
    have hupd := updatePresentationSession_of_mem stor last.id
      { endTime := some (some now), isActive := some false }
      (by rw [heq]; simp)
    have hcur : last.id < stor.currentSessionId := by
      refine hBound last ?_
      rw [heq]
      exact List.mem_append.2 (Or.inr (List.mem_singleton.2 rfl))
    rw [hmap] at hupd
    rw [createPresentationSession_eq_some stor ins now last _ hact hupd]
    simp only []
    have hboundAll : ∀ a ∈ init.map (fun s => s.id) ++ [last.id],
        a < stor.currentSessionId := by
      intro a ha
      rcases List.mem_append.1 ha with ha | ha
      · obtain ⟨s, hs, rfl⟩ := List.mem_map.1 ha
        refine hBound s ?_
        rw [heq]
        exact List.mem_append.2 (Or.inl hs)
      · rw [List.mem_singleton.1 ha]
        exact hcur
    refine ⟨⟨?_, ?_, ?_, ?_⟩, ?_, ?_⟩
    · rw [List.dropLast_concat]
      intro s hs
      rcases List.mem_append.1 hs with hs | hs
      · exact hinit s hs
      · rw [List.mem_singleton.1 hs]
        exact ⟨rfl, by simp [applySessionPatch]⟩
    · rw [List.getLast?_concat]
      simpa using hActive
    · rw [List.chain'_iff_pairwise]
      have hids : ((init ++ [applySessionPatch last
            { endTime := some (some now), isActive := some false }]) ++
          [({ id := stor.currentSessionId, teamId := ins.teamId,
              startTime := ins.startTime, endTime := none, isActive := ins.isActive,
              createdBy := ins.createdBy } : PresentationSession)]).map (fun s => s.id)
          = (init.map (fun s => s.id) ++ [last.id]) ++ [stor.currentSessionId] := by
        simp [applySessionPatch]
      rw [hids, List.pairwise_append]
      refine ⟨hpair, List.pairwise_singleton _ _, ?_⟩
      intro a ha b hb
      rw [List.mem_singleton.1 hb]
      exact hboundAll a ha
    · intro s hs
      rcases List.mem_append.1 hs with hs | hs
      · rcases List.mem_append.1 hs with hs | hs
        · refine Nat.lt_succ_of_lt (hBound s ?_)
          rw [heq]
          exact List.mem_append.2 (Or.inl hs)
        · rw [List.mem_singleton.1 hs]
          exact Nat.lt_succ_of_lt hcur
      · rw [List.mem_singleton.1 hs]
        exact Nat.lt_succ_self _
    · rw [List.getLast?_concat]
    · have h0 : init.countP (fun s => s.isActive) = 0 :=
        List.countP_eq_zero.2 (fun s hs => by simp [(hinit s hs).1])
      simp [countActive, List.countP_append, h0, applySessionPatch, hActive]

/-- Every `start_presentation` outcome (rejection or success) preserves the
session-store invariant. -/
theorem startPresentation_preserves (st : ServerState) (c : Client)
    (teamId now : Nat) (h : SessionsInv st.storage) :
    SessionsInv (startPresentation st c teamId now).1.storage := by
  cases hAdm : c.isAdmin
  · simpa [startPresentation, hAdm] using h
  · cases hT : st.storage.getTeam teamId
    · simpa [startPresentation, hAdm, hT] using h
    · simp only [startPresentation, hAdm, Bool.not_true, Bool.false_eq_true, if_false,
        hT, clearTimerInterval_storage]
      exact (createPresentationSession_active st.storage _ now h rfl).1

/-- The invariant holds after any sequence of start commands. -/
theorem runStarts_inv (st : ServerState) (cmds : List (Client × Nat × Nat))
    (h : SessionsInv st.storage) : SessionsInv (runStarts st cmds).storage := by
  induction cmds generalizing st with
  | nil => exact h
  | cons c rest ih => exact ih _ (startPresentation_preserves _ _ _ _ h)

/-- A successful start leaves exactly one active session — the newly created
one, stored last and installed as the transient active session — and every
earlier session inactive with a set `endTime`. -/
theorem startPresentation_success_state (st : ServerState) (c : Client)
    (teamId now : Nat) (team : Team) (hA : c.isAdmin = true)
    (hT : st.storage.getTeam teamId = some team) (hInv : SessionsInv st.storage) :
    SessionsInv (startPresentation st c teamId now).1.storage ∧
    countActive (startPresentation st c teamId now).1.storage.sessions = 1 ∧
    (startPresentation st c teamId now).1.activeSession
      = (startPresentation st c teamId now).1.storage.sessions.getLast? ∧
    (∀ s ∈ (startPresentation st c teamId now).1.storage.sessions.dropLast,
        s.isActive = false ∧ s.endTime ≠ none) := by
  have hcore := createPresentationSession_active st.storage
    { teamId := teamId, startTime := now, isActive := true, createdBy := c.userId }
    now hInv rfl
  simp only [startPresentation, hA, Bool.not_true, Bool.false_eq_true, if_false, hT,
    clearTimerInterval_storage, clearTimerInterval_activeSession]
  exact ⟨hcore.1, hcore.2.2, hcore.2.1.symm, hcore.1.1⟩

/-- C1: for every sequence of start commands from an invariant-holding state,
the store keeps the at-most-one-active-session invariant, and after each
successful start (admin caller, existing team) exactly one stored session is
active — the most recently created one, which is also the transient active
session — while every previously active session is inactive with a non-null
`endTime` (the store deactivates it during creation). -/
theorem c1_at_most_one_active (st0 : ServerState)
    (cmds : List (Client × Nat × Nat)) (sender : Client) (teamId now : Nat)
    (team : Team) (h0 : SessionsInv st0.storage) (hA : sender.isAdmin = true)
    (hT : (runStarts st0 cmds).storage.getTeam teamId = some team) :
    SessionsInv (runStarts st0 cmds).storage ∧
    countActive
        (startPresentation (runStarts st0 cmds) sender teamId now).1.storage.sessions
      = 1 ∧
    (startPresentation (runStarts st0 cmds) sender teamId now).1.activeSession
      = (startPresentation
          (runStarts st0 cmds) sender teamId now).1.storage.sessions.getLast? ∧
    (∀ s ∈ (startPresentation
          (runStarts st0 cmds) sender teamId now).1.storage.sessions.dropLast,
        s.isActive = false ∧ s.endTime ≠ none) := by
  have hrun := runStarts_inv st0 cmds h0
  have hsucc := startPresentation_success_state (runStarts st0 cmds) sender teamId now
    team hA hT hrun
  exact ⟨hrun, hsucc.2.1, hsucc.2.2.1, hsucc.2.2.2⟩

/-- Witness for C1 at `baseState` (one stored active session) with a further
successful start for `team1`. -/
theorem c1_at_most_one_active_witness :
    SessionsInv baseState.storage ∧ adminClient.isAdmin = true ∧
    (runStarts baseState []).storage.getTeam 1 = some team1 ∧
    countActive
        (startPresentation (runStarts baseState []) adminClient 1 7).1.storage.sessions
      = 1 := by
  have h0 : SessionsInv baseState.storage :=
    ⟨by decide, by decide, by simp [baseState, baseStorage, sess1], by decide⟩
  exact ⟨h0, rfl, by decide,
    (c1_at_most_one_active baseState [] adminClient 1 7 team1 h0 rfl (by decide)).2.1⟩

end PeerPresent
